import Mathlib

/-!
Shallow embedding of the state-evaluation and sensor-aggregation engine of
`apps/virtual_thermostat/virtual_thermostat.py` (class `VirtualThermostat`).

Modelling conventions:
* Python floats are modelled as rationals (`ℚ`); `round(x, 1)` is modelled
  exactly as round-half-to-even on rationals.
* Host (Home Assistant) queries made while processing one sensor are packaged
  into a `SensorInput` record; a query that raises is marked explicitly.
* A Python function that can let an exception escape is modelled with
  `HostResult`; `HostResult.raised` is an uncaught exception.
* The radiator switches are always driven identically by
  `set_radiator_switch`, and the host is modelled as applying switch commands
  synchronously, so a single `SwitchState` describes the shared switch state.
-/

namespace VirtualThermostat

/-- Outcome of running a piece of Python code against the host:
either a value, or an uncaught exception. -/
inductive HostResult (α : Type) where
  | ok (a : α)
  | raised
deriving DecidableEq, Repr

/-- On/off state of a radiator switch. -/
inductive SwitchState where
  | on
  | off
deriving DecidableEq, Repr

/-- Constant `DEFAULT_TARGET_TEMP = 18` from the source. -/
def DEFAULT_TARGET_TEMP : ℚ := 18

/-- Constant `DEFAULT_MAX_INTERVAL = 0.8` from the source. -/
def DEFAULT_MAX_INTERVAL : ℚ := 8 / 10

/-- Constant `DEFAULT_MAX_AGE = 30 * 60` (seconds) from the source. -/
def DEFAULT_MAX_AGE : ℚ := 30 * 60

/-- A Python value held in the loose `self.data` record: either a number
(a JSON number or a numeric default) or a raw string (an MQTT payload stored
verbatim). -/
inductive PyVal where
  | num (q : ℚ)
  | str (s : String)
deriving DecidableEq, Repr

/-- Value of a list of decimal digit characters read left to right. -/
def digitsVal (cs : List Char) : ℕ :=
  cs.foldl (fun acc c => 10 * acc + (c.toNat - 48)) 0

/-- Parse an unsigned decimal numeral, optionally containing one decimal
point, into a rational. Mirrors the inputs Python `float` accepts among
plain unsigned decimal literals; anything else fails. -/
def parseUnsignedFloat (cs : List Char) : Option ℚ :=
  let ip := (cs.span (fun c => c.isDigit)).1
  let rest := (cs.span (fun c => c.isDigit)).2
  match rest with
  | [] => if ip = [] then none else some ((digitsVal ip : ℕ) : ℚ)
  | c :: fs =>
    if c = '.' then
      let fp := (fs.span (fun c2 => c2.isDigit)).1
      let rest2 := (fs.span (fun c2 => c2.isDigit)).2
      if rest2 = [] ∧ (ip ≠ [] ∨ fp ≠ []) then
        some ((digitsVal ip : ℕ) + ((digitsVal fp : ℕ) : ℚ) / (10 : ℚ) ^ fp.length)
      else none
    else none

/-- Model of the Python builtin `float(x)` on the value shapes this app
stores: a number passes through, a string is parsed as an optionally signed
decimal numeral, and anything unparsable raises (modelled as `none`). -/
def pyFloat : PyVal → Option ℚ
  | .num q => some q
  | .str s =>
    match s.data with
    | '-' :: rest => (parseUnsignedFloat rest).map (fun q => -q)
    | '+' :: rest => parseUnsignedFloat rest
    | cs => parseUnsignedFloat cs

/-- Round a rational to the nearest integer, ties to even: the behaviour of
the Python builtin `round` on exact values. -/
def roundHalfEven (q : ℚ) : ℤ :=
  let f := ⌊q⌋
  if q - (f : ℚ) < 1 / 2 then f
  else if 1 / 2 < q - (f : ℚ) then f + 1
  else if f % 2 = 0 then f else f + 1

/-- Model of Python `round(x, 1)`: round to one decimal place, ties to even. -/
def pyRound1 (q : ℚ) : ℚ := (roundHalfEven (q * 10) : ℚ) / 10

/-- What the host reports for one configured temperature sensor during
`update_sensor_status`.

* `attrName` is the optional sub-attribute from the `entity,attribute`
  compound configuration form.
* `entityExists` is the result of `entity_exists`.
* `lastUpdatedStr` is the raw string `get_state(s, "last_updated")`.
* `secondsSinceUpdate` is the value of
  `(now - convert_utc(last_updated_str)).seconds`; `raised` means reading or
  converting the timestamp raised an exception (in the source these calls are
  NOT inside a try block).
* `parsedValue` is the result of `float(get_state(s, a))`; `none` means that
  expression raised (in the source it IS inside a try block). -/
structure SensorInput where
  attrName : Option String
  entityExists : Bool
  lastUpdatedStr : String
  secondsSinceUpdate : HostResult ℕ
  parsedValue : Option ℚ
deriving DecidableEq, Repr

/-- The per-sensor diagnostic status record built by `update_sensor_status`. -/
structure SensorStatus where
  attrName : Option String
  valid : Bool
  value : Option ℚ
  message : Option String
  secondsSinceLastUpdate : Option ℕ
  lastUpdated : Option String
deriving DecidableEq, Repr

/-- The "too old" diagnostic message `f"Data to old ({minutes} minutes)"`,
where `minutes = round(seconds / 60)`. -/
def staleMessage (seconds : ℕ) : String :=
  "Data to old (" ++ toString (roundHalfEven ((seconds : ℚ) / 60)) ++ " minutes)"

/-- One iteration of the `update_sensor_status` loop body for one configured
sensor: build its status record, and the contribution (`some value`) it makes
to the running valid-sensor counter and temperature sum. `raised` models the
uncaught exception escaping when the `last_updated` timestamp of an existing
entity cannot be read or converted. -/
def updateOneSensor (max_age : ℚ) (inp : SensorInput) : HostResult (SensorStatus × Option ℚ) :=
  let base : SensorStatus :=
    { attrName := inp.attrName, valid := true, value := none, message := none,
      secondsSinceLastUpdate := none, lastUpdated := none }
  if inp.entityExists then
    match inp.secondsSinceUpdate with
    | .raised => .raised
    | .ok seconds =>
      let st0 : SensorStatus :=
        if (seconds : ℚ) > max_age then
          { base with lastUpdated := some inp.lastUpdatedStr,
                      secondsSinceLastUpdate := some seconds,
                      message := some (staleMessage seconds),
                      valid := false }
        else
          { base with lastUpdated := some inp.lastUpdatedStr,
                      secondsSinceLastUpdate := some seconds }
      match inp.parsedValue with
      | some v =>
        let st := { st0 with value := some v }
        .ok (st, if st.valid then some v else none)
      | none =>
        let msg := if st0.message = none then some ("Unable to read sensor state") else st0.message
        .ok ({ st0 with valid := false, message := msg }, none)
  else
    .ok ({ base with message := some ("Entity not found"), valid := false }, none)

/-- The `update_sensor_status` loop over the configured sensors, accumulating
the status records, the number of valid sensors, and the temperature sum.
An uncaught exception while processing any sensor aborts the whole loop. -/
def runSensors (max_age : ℚ) : List (String × SensorInput) → HostResult (List (String × SensorStatus) × ℕ × ℚ)
  | [] => .ok ([], 0, 0)
  | (name, inp) :: rest =>
    match updateOneSensor max_age inp with
    | .raised => .raised
    | .ok (st, contrib) =>
      match runSensors max_age rest with
      | .raised => .raised
      | .ok (sts, n, sum) =>
        .ok ((name, st) :: sts,
             (if contrib.isSome then 1 else 0) + n,
             contrib.getD 0 + sum)

/-- The `self.sensor_data` record assembled at the end of
`update_sensor_status`. -/
structure AggregatedReading where
  current_temperature : ℚ
  valid_sensors : ℕ
  max_age_minutes : ℚ
  sensor_data : List (String × SensorStatus)
deriving DecidableEq, Repr

/-- Model of `VirtualThermostat.update_sensor_status`: run the loop over all
configured sensors, then divide the temperature sum by the count only when
more than one sensor is valid, and round to one decimal place. -/
def update_sensor_status (max_age : ℚ) (sensors : List (String × SensorInput)) : HostResult AggregatedReading :=
  match runSensors max_age sensors with
  | .raised => .raised
  | .ok (sts, n, sum) =>
    .ok { current_temperature := pyRound1 (if 1 < n then sum / (n : ℚ) else sum),
          valid_sensors := n,
          max_age_minutes := max_age / 60,
          sensor_data := sts }

/-- The values of the sensors marked `valid` in an aggregated reading. -/
def validValues (sd : AggregatedReading) : List ℚ :=
  (sd.sensor_data.filter (fun p => p.2.valid)).map (fun p => p.2.value.getD 0)

/-- The persisted `self.data` record `{target_temp, high_temp, low_temp, mode}`. -/
structure ThermoData where
  target_temp : PyVal
  high_temp : PyVal
  low_temp : PyVal
  mode : String
deriving DecidableEq, Repr

/-- A persistence file that parsed to a flat JSON object, read as the four
fields this app uses, any of which may be absent. -/
structure PersistFile where
  target_temp : Option PyVal
  high_temp : Option PyVal
  low_temp : Option PyVal
  mode : Option String
deriving DecidableEq, Repr

/-- The outcome of `open` plus `json.load` on the persistence file, as seen
by `load_persistance_file`:
* `missingOrUnparsable` — `IOError` (file not found) or any other exception
  while opening or parsing; both except branches catch it and set
  `self.data = {}`;
* `obj f` — the file parsed to a JSON object;
* `nonObject` — the file parsed to valid JSON that is not an object (an
  array, string, number or null). -/
inductive PersistLoad where
  | missingOrUnparsable
  | obj (f : PersistFile)
  | nonObject
deriving DecidableEq, Repr

/-- Model of `VirtualThermostat.load_persistance_file`. The try block wraps
only the open/parse: `IOError` and every other open/parse exception are
caught and yield the empty record, which the subsequent lines fill with the
defaults (`DEFAULT_TARGET_TEMP = 18` for the three temperatures, `"off"` for
the mode), as they fill any field absent from a parsed object. Those
default-filling lines sit OUTSIDE the try block, so when the file parsed to
a non-object JSON value (`self.data` a list, string, number or null) the
membership test or item assignment on it raises an uncaught `TypeError`,
modelled as `raised`. -/
def load_persistance_file : PersistLoad → HostResult ThermoData
  | .missingOrUnparsable =>
    .ok { target_temp := .num DEFAULT_TARGET_TEMP,
          high_temp := .num DEFAULT_TARGET_TEMP,
          low_temp := .num DEFAULT_TARGET_TEMP,
          mode := "off" }
  | .obj f =>
    .ok { target_temp := f.target_temp.getD (.num DEFAULT_TARGET_TEMP),
          high_temp := f.high_temp.getD (.num DEFAULT_TARGET_TEMP),
          low_temp := f.low_temp.getD (.num DEFAULT_TARGET_TEMP),
          mode := f.mode.getD "off" }
  | .nonObject => .raised

/-- Model of `VirtualThermostat.save_persistance_file`: `json.dumps` writes
the full record as a flat JSON object containing all four fields. -/
def save_persistance_file (d : ThermoData) : PersistFile :=
  { target_temp := some d.target_temp, high_temp := some d.high_temp,
    low_temp := some d.low_temp, mode := some d.mode }

/-- Model of `VirtualThermostat.handle_set_mode`: the MQTT payload is stored
verbatim into `self.data["mode"]`. -/
def handle_set_mode (d : ThermoData) (payload : String) : ThermoData :=
  { d with mode := payload }

/-- Model of `VirtualThermostat.handle_set_temp`: `temp_type` is the topic
suffix after `set_` (the router only dispatches `target_temp`, `high_temp`
and `low_temp` here); the raw string payload is stored into
`self.data[temp_type]` with no conversion. -/
def handle_set_temp (d : ThermoData) (tempType : String) (payload : String) : ThermoData :=
  if tempType = "target_temp" then { d with target_temp := .str payload }
  else if tempType = "high_temp" then { d with high_temp := .str payload }
  else if tempType = "low_temp" then { d with low_temp := .str payload }
  else d

/-- The configuration an instance holds after `initialize` and
`parse_and_register`: the dead-band width `max_interval`, the staleness
cutoff `max_age` (seconds), and the configured radiator switches. -/
structure ThermoConfig where
  max_interval : ℚ
  max_age : ℚ
  radiator_switches : List String
deriving DecidableEq, Repr

/-- Model of `VirtualThermostat.set_radiator_switch`: issue one
`switch/turn_<state>` service call per configured radiator switch, all with
the same state. -/
def set_radiator_switch (switches : List String) (state : SwitchState) : List (String × SwitchState) :=
  switches.map (fun s => (s, state))

/-- The hysteresis step of `evaluate_status`: the switch commands issued and
the resulting shared switch state. `< lowest` switches on, `>= highest`
switches off, and inside the band no command is issued so the previous state
is kept. -/
def hysteresisStep (switches : List String) (max_interval target_temp : ℚ)
    (prev : SwitchState) (current_temp : ℚ) : List (String × SwitchState) × SwitchState :=
  let lowest_temp := target_temp - max_interval / 2
  let highest_temp := target_temp + max_interval / 2
  if current_temp < lowest_temp then (set_radiator_switch switches .on, .on)
  else if current_temp ≥ highest_temp then (set_radiator_switch switches .off, .off)
  else ([], prev)

/-- Result of one `evaluate_status` call: the aggregated reading it computed,
the switch commands it issued, the resulting shared radiator-switch state,
and the `current_action` label it set. -/
structure EvalResult where
  reading : AggregatedReading
  commands : List (String × SwitchState)
  switchState : SwitchState
  action : String
deriving DecidableEq, Repr

/-- Model of `VirtualThermostat.evaluate_status`: recompute the aggregated
sensor reading, then, unless the mode is `"off"` or no sensor is valid,
coerce the stored target to a float and run the hysteresis step, finally
deriving the action label from the state read back from the first radiator
switch. `raised` models an uncaught Python exception: a sensor-timestamp
conversion failure, `float(self.data["target_temp"])` failing, or indexing
`radiator_switches[0]` in an empty list. -/
def evaluate_status (cfg : ThermoConfig) (d : ThermoData) (prev : SwitchState)
    (sensors : List (String × SensorInput)) : HostResult EvalResult :=
  match update_sensor_status cfg.max_age sensors with
  | .raised => .raised
  | .ok sd =>
    if d.mode = "off" ∨ sd.valid_sensors = 0 then
      .ok { reading := sd,
            commands := set_radiator_switch cfg.radiator_switches .off,
            switchState := .off,
            action := "off" }
    else
      match pyFloat d.target_temp with
      | none => .raised
      | some target_temp =>
        let step := hysteresisStep cfg.radiator_switches cfg.max_interval
          target_temp prev sd.current_temperature
        match cfg.radiator_switches with
        | [] => .raised
        | _ :: _ =>
          .ok { reading := sd,
                commands := step.1,
                switchState := step.2,
                action := if step.2 = SwitchState.off then "idle" else "heating" }

/-! Concrete inputs used to exercise the model on closed instances. -/

/-- A configuration with the default dead band, a 30-minute staleness cutoff,
and two radiator switches. -/
def cfgW : ThermoConfig :=
  { max_interval := 8 / 10, max_age := 1800,
    radiator_switches := ["switch.r1", "switch.r2"] }

/-- A fresh, readable sensor reporting 17 degrees. -/
def inputGood : SensorInput :=
  { attrName := none, entityExists := true,
    lastUpdatedStr := "2021-01-01T00:00:00+00:00",
    secondsSinceUpdate := .ok 10, parsedValue := some 17 }

/-- The status `update_sensor_status` derives for `inputGood`. -/
def statusGood : SensorStatus :=
  { attrName := none, valid := true, value := some 17, message := none,
    secondsSinceLastUpdate := some 10,
    lastUpdated := some "2021-01-01T00:00:00+00:00" }

/-- A single-sensor configuration built from `inputGood`. -/
def sensorsW : List (String × SensorInput) := [("sensor.t1", inputGood)]

/-- The aggregated reading for `sensorsW` under a 1800-second cutoff. -/
def sdW : AggregatedReading :=
  { current_temperature := 17, valid_sensors := 1, max_age_minutes := 30,
    sensor_data := [("sensor.t1", statusGood)] }

/-- A persisted record with mode `"off"` and all temperatures at 18. -/
def dOffW : ThermoData :=
  { target_temp := .num 18, high_temp := .num 18, low_temp := .num 18,
    mode := "off" }

/-- A persisted record with mode `"heat"` and all temperatures at 18. -/
def dHeatW : ThermoData :=
  { target_temp := .num 18, high_temp := .num 18, low_temp := .num 18,
    mode := "heat" }

/-- An existing sensor last updated 40 minutes ago that still parses to 19. -/
def inputStale : SensorInput :=
  { attrName := none, entityExists := true,
    lastUpdatedStr := "2021-01-01T00:00:00+00:00",
    secondsSinceUpdate := .ok 2400, parsedValue := some 19 }

/-- An existing sensor whose `last_updated` timestamp cannot be converted. -/
def inputBadTimestamp : SensorInput :=
  { attrName := none, entityExists := true,
    lastUpdatedStr := "not-a-timestamp",
    secondsSinceUpdate := .raised, parsedValue := some 20 }

/-- A configured sensor whose entity does not exist in the host. -/
def inputMissing : SensorInput :=
  { attrName := none, entityExists := false, lastUpdatedStr := "",
    secondsSinceUpdate := .raised, parsedValue := none }

/-- A fresh, existing sensor whose state cannot be parsed as a number. -/
def inputUnparsable : SensorInput :=
  { attrName := none, entityExists := true,
    lastUpdatedStr := "2021-01-01T00:00:00+00:00",
    secondsSinceUpdate := .ok 5, parsedValue := none }

/-- The evaluation result for `sensorsW` with mode `"heat"`, target 18 and
the switches previously off: 17 is below the 17.6 band floor, so the
switches are commanded on and the action is `"heating"`. -/
def rHeatW : EvalResult :=
  { reading := sdW,
    commands := [("switch.r1", SwitchState.on), ("switch.r2", SwitchState.on)],
    switchState := SwitchState.on, action := "heating" }

/-- The status `update_sensor_status` derives for `inputStale` under a
1800-second cutoff: invalid with the "too old" message, but with the parsed
value still recorded for diagnostics. -/
def statusStale : SensorStatus :=
  { attrName := none, valid := false, value := some 19,
    message := some (staleMessage 2400), secondsSinceLastUpdate := some 2400,
    lastUpdated := some "2021-01-01T00:00:00+00:00" }

/-- A sensor list whose first sensor has an unconvertible timestamp. -/
def sensorsBadW : List (String × SensorInput) :=
  [("sensor.bad", inputBadTimestamp), ("sensor.t1", inputGood)]

/-- A sensor list mixing a missing entity, an unparsable value and a good
sensor. -/
def sensorsMixedW : List (String × SensorInput) :=
  [("sensor.missing", inputMissing), ("sensor.unreadable", inputUnparsable),
   ("sensor.t1", inputGood)]

/-! Theorems. -/

/-- Evaluation lemma: the aggregated reading computed for the single good
17-degree sensor under the witness configuration. -/
theorem update_sensor_status_sensorsW :
    update_sensor_status cfgW.max_age sensorsW = HostResult.ok sdW := by
  norm_num [update_sensor_status, runSensors, updateOneSensor, cfgW, sensorsW,
    inputGood, sdW, statusGood, pyRound1, roundHalfEven]

/-- C9: saving a setpoint record writes a JSON object with all four fields,
and loading that object back yields the record that was saved:
`load_persistance_file` after `save_persistance_file` is the identity on
setpoint records. -/
theorem c9_save_load_roundtrip (d : ThermoData) :
    load_persistance_file (PersistLoad.obj (save_persistance_file d)) =
      HostResult.ok d := rfl

/-- C8 counterexample: a persistence file containing valid JSON that is not
an object — for example `[]` — passes `json.load` without triggering either
except branch, and the default-filling lines that follow (outside the try
block) then raise an uncaught `TypeError`, so "load never raises a fatal
error" is false. -/
theorem c8_counterexample :
    load_persistance_file PersistLoad.nonObject = HostResult.raised := rfl

/-- C8 amended: for a missing file, a file that fails to open or parse, or a
file parsing to a JSON object, loading never raises; the result then always
contains all four fields, with `target_temp`, `high_temp` and `low_temp`
defaulting to 18 and mode defaulting to `"off"` for any field absent from
the file. (A file parsing to non-object JSON instead raises an uncaught
`TypeError` in the default-filling code, as the counterexample shows.) -/
theorem c8_load_defaults (f : PersistFile) :
    load_persistance_file PersistLoad.missingOrUnparsable =
      HostResult.ok
        { target_temp := PyVal.num 18, high_temp := PyVal.num 18,
          low_temp := PyVal.num 18, mode := "off" } ∧
    ∃ d, load_persistance_file (PersistLoad.obj f) = HostResult.ok d ∧
      (f.target_temp = none → d.target_temp = PyVal.num 18) ∧
      (f.high_temp = none → d.high_temp = PyVal.num 18) ∧
      (f.low_temp = none → d.low_temp = PyVal.num 18) ∧
      (f.mode = none → d.mode = "off") := by
  refine ⟨rfl,
    { target_temp := f.target_temp.getD (.num DEFAULT_TARGET_TEMP),
      high_temp := f.high_temp.getD (.num DEFAULT_TARGET_TEMP),
      low_temp := f.low_temp.getD (.num DEFAULT_TARGET_TEMP),
      mode := f.mode.getD "off" },
    rfl, ?_, ?_, ?_, ?_⟩ <;> intro h <;> simp [h, DEFAULT_TARGET_TEMP]

/-- Witness for C8 amended at a concrete file missing three of the four
fields. -/
theorem c8_load_defaults_witness :
    load_persistance_file PersistLoad.missingOrUnparsable =
      HostResult.ok
        { target_temp := PyVal.num 18, high_temp := PyVal.num 18,
          low_temp := PyVal.num 18, mode := "off" } ∧
    ∃ d, load_persistance_file (PersistLoad.obj
        { target_temp := none, high_temp := some (PyVal.num 21),
          low_temp := none, mode := none }) = HostResult.ok d ∧
      d.target_temp = PyVal.num 18 ∧ d.mode = "off" := by
  obtain ⟨d, hd, h1, h2, h3, h4⟩ :=
    (c8_load_defaults
      { target_temp := none, high_temp := some (PyVal.num 21),
        low_temp := none, mode := none }).2
  exact ⟨(c8_load_defaults
      { target_temp := none, high_temp := some (PyVal.num 21),
        low_temp := none, mode := none }).1,
    d, hd, h1 rfl, h4 rfl⟩

/-- C1: whenever the persisted mode is `"off"` or the aggregated reading has
no valid sensor, `evaluate_status` issues an off command to every configured
radiator switch, sets the action label to `"off"`, and returns without any
hysteresis computation — the result does not depend on the temperature, the
target or the previous switch state. -/
theorem c1_off_mode_or_no_valid_sensor_forces_off
    (cfg : ThermoConfig) (d : ThermoData) (prev : SwitchState)
    (sensors : List (String × SensorInput)) (sd : AggregatedReading)
    (hagg : update_sensor_status cfg.max_age sensors = HostResult.ok sd)
    (h : d.mode = "off" ∨ sd.valid_sensors = 0) :
    evaluate_status cfg d prev sensors =
      HostResult.ok
        { reading := sd,
          commands := set_radiator_switch cfg.radiator_switches SwitchState.off,
          switchState := SwitchState.off,
          action := "off" } ∧
    ∀ s ∈ cfg.radiator_switches,
      (s, SwitchState.off) ∈ set_radiator_switch cfg.radiator_switches SwitchState.off := by
  constructor
  · simp only [evaluate_status, hagg]
    rw [if_pos h]
  · intro s hs
    exact List.mem_map.mpr ⟨s, hs, rfl⟩

/-- Witness for C1: mode `"off"` with a valid 17-degree sensor and the
switches previously on. -/
theorem c1_witness :
    evaluate_status cfgW dOffW SwitchState.on sensorsW =
      HostResult.ok
        { reading := sdW,
          commands := set_radiator_switch cfgW.radiator_switches SwitchState.off,
          switchState := SwitchState.off,
          action := "off" } ∧
    ("switch.r1", SwitchState.off) ∈
      set_radiator_switch cfgW.radiator_switches SwitchState.off :=
  ⟨(c1_off_mode_or_no_valid_sensor_forces_off cfgW dOffW SwitchState.on
      sensorsW sdW update_sensor_status_sensorsW (Or.inl rfl)).1,
   (c1_off_mode_or_no_valid_sensor_forces_off cfgW dOffW SwitchState.on
      sensorsW sdW update_sensor_status_sensorsW (Or.inl rfl)).2
      "switch.r1" (by simp [cfgW])⟩

/-- C10: `handle_set_mode` stores the payload verbatim, and heating control
is disabled only by the exact string `"off"`: for any other stored mode,
`evaluate_status` behaves exactly as it does with mode `"heat"`. -/
theorem c10_only_exact_off_disables_heating
    (cfg : ThermoConfig) (d : ThermoData) (prev : SwitchState)
    (sensors : List (String × SensorInput)) (payload : String)
    (h : payload ≠ "off") :
    (handle_set_mode d payload).mode = payload ∧
    evaluate_status cfg (handle_set_mode d payload) prev sensors =
      evaluate_status cfg (handle_set_mode d "heat") prev sensors := by
  refine ⟨rfl, ?_⟩
  unfold evaluate_status handle_set_mode
  cases hagg : update_sensor_status cfg.max_age sensors with
  | raised => rfl
  | ok sd =>
    dsimp only
    by_cases hv : sd.valid_sensors = 0
    · rw [if_pos (Or.inr hv), if_pos (Or.inr hv)]
    · rw [if_neg (by simp [h, hv]), if_neg (by simp [hv])]

/-- Witness for C10 with the payload `"auto"`. -/
theorem c10_witness :
    (handle_set_mode dOffW "auto").mode = "auto" ∧
    evaluate_status cfgW (handle_set_mode dOffW "auto") SwitchState.on sensorsW =
      evaluate_status cfgW (handle_set_mode dOffW "heat") SwitchState.on sensorsW :=
  c10_only_exact_off_disables_heating cfgW dOffW SwitchState.on sensorsW
    "auto" (by decide)

/-- C7 counterexample: the inbound payload `"abc"` for `set_target_temp` is
stored verbatim as a raw string (no coercion to float happens before the
store, and the command is not rejected), even though it cannot be coerced;
the failure only surfaces later as an uncaught exception when
`evaluate_status` calls `float(self.data["target_temp"])`. -/
theorem c7_counterexample :
    (handle_set_temp dOffW "target_temp" "abc").target_temp =
      PyVal.str "abc" ∧
    pyFloat (PyVal.str "abc") = none ∧
    evaluate_status cfgW (handle_set_temp dHeatW "target_temp" "abc")
      SwitchState.off sensorsW = HostResult.raised := by
  refine ⟨rfl, rfl, ?_⟩
  simp only [evaluate_status, update_sensor_status_sensorsW]
  rw [if_neg (by simp [handle_set_temp, dHeatW, sdW])]
  simp [handle_set_temp, pyFloat, parseUnsignedFloat]

/-- C7 amended: `handle_set_temp` stores the raw string payload verbatim in
the addressed field with no float coercion and no validation; a payload that
fails coercion is accepted at the command boundary, and the error instead
surfaces as an uncaught exception in `evaluate_status` (when the mode is not
`"off"` and at least one sensor is valid). -/
theorem c7_set_temp_stores_raw_payload
    (d : ThermoData) (payload : String) (cfg : ThermoConfig)
    (prev : SwitchState) (sensors : List (String × SensorInput))
    (sd : AggregatedReading)
    (hparse : pyFloat (PyVal.str payload) = none)
    (hmode : d.mode ≠ "off")
    (hagg : update_sensor_status cfg.max_age sensors = HostResult.ok sd)
    (hvalid : sd.valid_sensors ≠ 0) :
    (handle_set_temp d "target_temp" payload).target_temp = PyVal.str payload ∧
    (handle_set_temp d "high_temp" payload).high_temp = PyVal.str payload ∧
    (handle_set_temp d "low_temp" payload).low_temp = PyVal.str payload ∧
    evaluate_status cfg (handle_set_temp d "target_temp" payload) prev sensors =
      HostResult.raised := by
  refine ⟨rfl, rfl, rfl, ?_⟩
  have hst : handle_set_temp d "target_temp" payload =
      { d with target_temp := PyVal.str payload } := by
    simp [handle_set_temp]
  rw [hst]
  simp only [evaluate_status, hagg]
  rw [if_neg (by simp [hmode, hvalid]), hparse]

/-- Witness for C7 amended: payload `"abc"`, mode `"heat"`, one valid sensor. -/
theorem c7_set_temp_stores_raw_payload_witness :
    (handle_set_temp dHeatW "target_temp" "abc").target_temp = PyVal.str "abc" ∧
    (handle_set_temp dHeatW "high_temp" "abc").high_temp = PyVal.str "abc" ∧
    (handle_set_temp dHeatW "low_temp" "abc").low_temp = PyVal.str "abc" ∧
    evaluate_status cfgW (handle_set_temp dHeatW "target_temp" "abc")
      SwitchState.off sensorsW = HostResult.raised :=
  c7_set_temp_stores_raw_payload dHeatW "abc" cfgW SwitchState.off sensorsW
    sdW rfl (by decide) update_sensor_status_sensorsW (by decide)

/-- Reduction lemma: when the mode is not `"off"`, some sensor is valid, the
stored target coerces to a float and at least one radiator switch is
configured, `evaluate_status` returns the hysteresis-step result with the
action label derived from the resulting switch state. -/
theorem evaluate_status_not_off
    (cfg : ThermoConfig) (d : ThermoData) (prev : SwitchState)
    (sensors : List (String × SensorInput)) (sd : AggregatedReading)
    (target_temp : ℚ) (s0 : String) (tl : List String)
    (hagg : update_sensor_status cfg.max_age sensors = HostResult.ok sd)
    (hmode : d.mode ≠ "off") (hvalid : sd.valid_sensors ≠ 0)
    (htarget : pyFloat d.target_temp = some target_temp)
    (hsw : cfg.radiator_switches = s0 :: tl) :
    evaluate_status cfg d prev sensors =
      HostResult.ok
        { reading := sd,
          commands := (hysteresisStep cfg.radiator_switches cfg.max_interval
            target_temp prev sd.current_temperature).1,
          switchState := (hysteresisStep cfg.radiator_switches cfg.max_interval
            target_temp prev sd.current_temperature).2,
          action := if (hysteresisStep cfg.radiator_switches cfg.max_interval
            target_temp prev sd.current_temperature).2 = SwitchState.off
            then "idle" else "heating" } := by
  simp only [evaluate_status, hagg]
  rw [if_neg (by simp [hmode, hvalid]), htarget, hsw]

/-- C2: with mode not `"off"` and at least one valid sensor, writing
`lowest = target - max_interval / 2` and `highest = target + max_interval / 2`:
below `lowest` every switch is commanded on, at or above `highest` every
switch is commanded off, and anywhere in `[lowest, highest)` no switch
command is issued and the previous switch state is retained. -/
theorem c2_hysteresis_band
    (cfg : ThermoConfig) (d : ThermoData) (prev : SwitchState)
    (sensors : List (String × SensorInput)) (sd : AggregatedReading)
    (target_temp : ℚ)
    (hmi : 0 ≤ cfg.max_interval)
    (hsw : cfg.radiator_switches ≠ [])
    (hagg : update_sensor_status cfg.max_age sensors = HostResult.ok sd)
    (hmode : d.mode ≠ "off") (hvalid : sd.valid_sensors ≠ 0)
    (htarget : pyFloat d.target_temp = some target_temp) :
    (sd.current_temperature < target_temp - cfg.max_interval / 2 →
      evaluate_status cfg d prev sensors =
        HostResult.ok
          { reading := sd,
            commands := set_radiator_switch cfg.radiator_switches SwitchState.on,
            switchState := SwitchState.on, action := "heating" }) ∧
    (target_temp + cfg.max_interval / 2 ≤ sd.current_temperature →
      evaluate_status cfg d prev sensors =
        HostResult.ok
          { reading := sd,
            commands := set_radiator_switch cfg.radiator_switches SwitchState.off,
            switchState := SwitchState.off, action := "idle" }) ∧
    (target_temp - cfg.max_interval / 2 ≤ sd.current_temperature →
      sd.current_temperature < target_temp + cfg.max_interval / 2 →
      evaluate_status cfg d prev sensors =
        HostResult.ok
          { reading := sd, commands := [], switchState := prev,
            action := if prev = SwitchState.off then "idle" else "heating" }) := by
  obtain ⟨s0, tl, hsw2⟩ : ∃ s0 tl, cfg.radiator_switches = s0 :: tl := by
    cases hcase : cfg.radiator_switches with
    | nil => exact absurd hcase hsw
    | cons s0 tl => exact ⟨s0, tl, rfl⟩
  have heval := evaluate_status_not_off cfg d prev sensors sd target_temp
    s0 tl hagg hmode hvalid htarget hsw2
  refine ⟨?_, ?_, ?_⟩
  · intro hlt
    have hstep : hysteresisStep cfg.radiator_switches cfg.max_interval
        target_temp prev sd.current_temperature =
        (set_radiator_switch cfg.radiator_switches SwitchState.on, SwitchState.on) := by
      simp only [hysteresisStep]
      rw [if_pos hlt]
    rw [heval, hstep]
    simp
  · intro hge
    have hnlt : ¬ sd.current_temperature < target_temp - cfg.max_interval / 2 := by
      push_neg
      linarith
    have hstep : hysteresisStep cfg.radiator_switches cfg.max_interval
        target_temp prev sd.current_temperature =
        (set_radiator_switch cfg.radiator_switches SwitchState.off, SwitchState.off) := by
      simp only [hysteresisStep]
      rw [if_neg hnlt, if_pos hge]
    rw [heval, hstep]
    simp
  · intro hlow hhigh
    have hnlt : ¬ sd.current_temperature < target_temp - cfg.max_interval / 2 :=
      not_lt.mpr hlow
    have hnge : ¬ sd.current_temperature ≥ target_temp + cfg.max_interval / 2 :=
      not_le.mpr hhigh
    have hstep : hysteresisStep cfg.radiator_switches cfg.max_interval
        target_temp prev sd.current_temperature = ([], prev) := by
      simp only [hysteresisStep]
      rw [if_neg hnlt, if_neg hnge]
    rw [heval, hstep]

/-- Witness for C2: 17 degrees against target 18 with dead band 0.8 lies
below `lowest = 17.6`, so the switches are commanded on. -/
theorem c2_witness :
    evaluate_status cfgW dHeatW SwitchState.off sensorsW =
      HostResult.ok
        { reading := sdW,
          commands := set_radiator_switch cfgW.radiator_switches SwitchState.on,
          switchState := SwitchState.on, action := "heating" } :=
  (c2_hysteresis_band cfgW dHeatW SwitchState.off sensorsW sdW 18
    (by norm_num [cfgW]) (by simp [cfgW]) update_sensor_status_sensorsW
    (by decide) (by decide) rfl).1 (by norm_num [sdW, cfgW])

/-- Evaluation lemma: the full `evaluate_status` result for the witness
heating scenario. -/
theorem evaluate_status_heatW :
    evaluate_status cfgW dHeatW SwitchState.off sensorsW = HostResult.ok rHeatW := by
  simp only [evaluate_status, update_sensor_status_sensorsW]
  rw [if_neg (by simp [dHeatW, sdW])]
  norm_num [dHeatW, sdW, cfgW, rHeatW, pyFloat, hysteresisStep,
    set_radiator_switch]
  decide

/-- C6: with mode not `"off"` and at least one valid sensor, the published
action label is derived from the resulting radiator-switch state: `"idle"`
exactly when the resulting state is off, `"heating"` exactly when it is on. -/
theorem c6_action_label_from_resulting_state
    (cfg : ThermoConfig) (d : ThermoData) (prev : SwitchState)
    (sensors : List (String × SensorInput)) (r : EvalResult)
    (h : evaluate_status cfg d prev sensors = HostResult.ok r)
    (hmode : d.mode ≠ "off")
    (hvalid : r.reading.valid_sensors ≠ 0) :
    (r.action = "idle" ↔ r.switchState = SwitchState.off) ∧
    (r.action = "heating" ↔ r.switchState = SwitchState.on) := by
  simp only [evaluate_status] at h
  split at h
  · exact absurd h (by simp)
  · next sd hagg =>
    split at h
    · next hoff =>
      injection h with h2
      subst h2
      rcases hoff with h1 | h1
      · exact absurd h1 hmode
      · exact absurd h1 (by simpa using hvalid)
    · next hoff =>
      split at h
      · exact absurd h (by simp)
      · next target_temp htarget =>
        split at h
        · exact absurd h (by simp)
        · injection h with h2
          subst h2
          cases hstep : (hysteresisStep cfg.radiator_switches cfg.max_interval
              target_temp prev sd.current_temperature).2 <;>
            simp [hstep]

/-- C4: an existing sensor whose seconds-since-update exceeds the staleness
cutoff is marked invalid with the "too old" message; its value is still
parsed and recorded when parsing succeeds, and it contributes nothing to the
valid-sensor count or the temperature sum (so it is excluded from the
average). -/
theorem c4_stale_sensor_diagnosed_not_counted
    (max_age : ℚ) (inp : SensorInput) (st : SensorStatus) (c : Option ℚ)
    (seconds : ℕ)
    (hex : inp.entityExists = true)
    (hsec : inp.secondsSinceUpdate = HostResult.ok seconds)
    (hstale : (seconds : ℚ) > max_age)
    (h : updateOneSensor max_age inp = HostResult.ok (st, c)) :
    st.valid = false ∧
    st.message = some (staleMessage seconds) ∧
    (∀ v, inp.parsedValue = some v → st.value = some v) ∧
    c = none := by
  simp only [updateOneSensor, hex, hsec, if_pos hstale, if_true] at h
  cases hpv : inp.parsedValue with
  | some v =>
    rw [hpv] at h
    injection h with h2
    injection h2 with h3 h4
    subst h3
    subst h4
    refine ⟨rfl, rfl, ?_, rfl⟩
    intro v2 hv2
    injection hv2 with h5
    rw [h5]
  | none =>
    rw [hpv] at h
    injection h with h2
    injection h2 with h3 h4
    subst h3
    subst h4
    refine ⟨rfl, by simp, ?_, rfl⟩
    intro v2 hv2
    exact absurd hv2 (by simp)

/-- Evaluation lemma: processing the stale 40-minute-old sensor under the
witness configuration yields the diagnostic status and no contribution. -/
theorem updateOneSensor_staleW :
    updateOneSensor cfgW.max_age inputStale =
      HostResult.ok (statusStale, none) := by
  norm_num [updateOneSensor, inputStale, statusStale, cfgW]

/-- Witness for C4: the sensor last updated 2400 seconds ago against the
1800-second cutoff. -/
theorem c4_witness :
    statusStale.valid = false ∧
    statusStale.message = some (staleMessage 2400) ∧
    (inputStale.parsedValue = some 19 → statusStale.value = some 19) ∧
    (none : Option ℚ) = none :=
  ⟨(c4_stale_sensor_diagnosed_not_counted cfgW.max_age inputStale statusStale
      none 2400 rfl rfl (by norm_num [cfgW]) updateOneSensor_staleW).1,
   (c4_stale_sensor_diagnosed_not_counted cfgW.max_age inputStale statusStale
      none 2400 rfl rfl (by norm_num [cfgW]) updateOneSensor_staleW).2.1,
   (c4_stale_sensor_diagnosed_not_counted cfgW.max_age inputStale statusStale
      none 2400 rfl rfl (by norm_num [cfgW]) updateOneSensor_staleW).2.2.1 19,
   (c4_stale_sensor_diagnosed_not_counted cfgW.max_age inputStale statusStale
      none 2400 rfl rfl (by norm_num [cfgW]) updateOneSensor_staleW).2.2.2⟩

/-- Witness for C6: the heating scenario, where the resulting switch state is
on and the published action is `"heating"`. -/
theorem c6_witness :
    (rHeatW.action = "idle" ↔ rHeatW.switchState = SwitchState.off) ∧
    (rHeatW.action = "heating" ↔ rHeatW.switchState = SwitchState.on) :=
  c6_action_label_from_resulting_state cfgW dHeatW SwitchState.off sensorsW
    rHeatW evaluate_status_heatW (by decide) (by decide)

/-- C5 counterexample: a bad `last_updated` timestamp on one sensor is NOT
caught — the timestamp read/conversion sits outside the try block — so the
whole aggregation aborts with an uncaught exception and no status is
computed for the remaining (perfectly good) sensor, and `evaluate_status`
aborts with it. -/
theorem c5_counterexample :
    update_sensor_status cfgW.max_age sensorsBadW = HostResult.raised ∧
    evaluate_status cfgW dHeatW SwitchState.off sensorsBadW =
      HostResult.raised :=
  ⟨rfl, rfl⟩

/-- Host-failure isolation for one sensor: as long as the `last_updated`
read/conversion of an existing entity does not raise, processing one sensor
never raises, a missing entity becomes that sensor's invalid status with the
"Entity not found" message, and an unparsable value leaves the sensor
invalid. -/
theorem updateOneSensor_no_uncaught (max_age : ℚ) (inp : SensorInput)
    (hts : inp.entityExists = true → inp.secondsSinceUpdate ≠ HostResult.raised) :
    ∃ st c, updateOneSensor max_age inp = HostResult.ok (st, c) ∧
      (inp.entityExists = false →
        st.valid = false ∧ st.message = some ("Entity not found")) ∧
      (inp.entityExists = true → inp.parsedValue = none → st.valid = false) := by
  cases hex : inp.entityExists with
  | false =>
    refine ⟨{ attrName := inp.attrName, valid := false, value := none,
              message := some ("Entity not found"),
              secondsSinceLastUpdate := none, lastUpdated := none },
            none, ?_, ?_, ?_⟩
    · simp [updateOneSensor, hex]
    · intro _
      exact ⟨rfl, rfl⟩
    · intro hcon
      exact absurd hcon (by simp)
  | true =>
    cases hsec : inp.secondsSinceUpdate with
    | raised => exact absurd hsec (hts hex)
    | ok seconds =>
      by_cases hstale : (seconds : ℚ) > max_age
      · cases hpv : inp.parsedValue with
        | some v =>
          refine ⟨{ attrName := inp.attrName, valid := false, value := some v,
                    message := some (staleMessage seconds),
                    secondsSinceLastUpdate := some seconds,
                    lastUpdated := some inp.lastUpdatedStr },
                  none, ?_, ?_, ?_⟩
          · simp only [updateOneSensor, hex, hsec]
            rw [if_pos hstale, hpv]
            simp
          · intro hcon
            exact absurd hcon (by simp)
          · intro _ _
            rfl
        | none =>
          refine ⟨{ attrName := inp.attrName, valid := false, value := none,
                    message := some (staleMessage seconds),
                    secondsSinceLastUpdate := some seconds,
                    lastUpdated := some inp.lastUpdatedStr },
                  none, ?_, ?_, ?_⟩
          · simp only [updateOneSensor, hex, hsec]
            rw [if_pos hstale, hpv]
            simp
          · intro hcon
            exact absurd hcon (by simp)
          · intro _ _
            rfl
      · cases hpv : inp.parsedValue with
        | some v =>
          refine ⟨{ attrName := inp.attrName, valid := true, value := some v,
                    message := none, secondsSinceLastUpdate := some seconds,
                    lastUpdated := some inp.lastUpdatedStr },
                  some v, ?_, ?_, ?_⟩
          · simp only [updateOneSensor, hex, hsec]
            rw [if_neg hstale, hpv]
            simp
          · intro hcon
            exact absurd hcon (by simp)
          · intro _ hnone
            exact absurd hnone (by simp)
        | none =>
          refine ⟨{ attrName := inp.attrName, valid := false, value := none,
                    message := some ("Unable to read sensor state"),
                    secondsSinceLastUpdate := some seconds,
                    lastUpdated := some inp.lastUpdatedStr },
                  none, ?_, ?_, ?_⟩
          · simp only [updateOneSensor, hex, hsec]
            rw [if_neg hstale, hpv]
            simp
          · intro hcon
            exact absurd hcon (by simp)
          · intro _ _
            rfl

/-- Loop-level isolation: if no existing sensor's timestamp conversion
raises, the whole loop completes with one status per configured sensor. -/
theorem runSensors_no_uncaught (max_age : ℚ) :
    ∀ sensors : List (String × SensorInput),
      (∀ p ∈ sensors,
        p.2.entityExists = true → p.2.secondsSinceUpdate ≠ HostResult.raised) →
      ∃ sts n sum, runSensors max_age sensors = HostResult.ok (sts, n, sum) ∧
        List.Forall₂ (fun (p : String × SensorInput) (q : String × SensorStatus) =>
          p.1 = q.1 ∧
          (p.2.entityExists = false →
            q.2.valid = false ∧ q.2.message = some ("Entity not found")) ∧
          (p.2.entityExists = true → p.2.parsedValue = none → q.2.valid = false))
          sensors sts := by
  intro sensors
  induction sensors with
  | nil =>
    intro _
    exact ⟨[], 0, 0, rfl, List.Forall₂.nil⟩
  | cons head tail ih =>
    intro hts
    obtain ⟨name, inp⟩ := head
    obtain ⟨st, c, heq, hp1, hp2⟩ :=
      updateOneSensor_no_uncaught max_age inp (hts (name, inp) (by simp))
    obtain ⟨sts, n, sum, heqr, hfa⟩ :=
      ih (fun p hp => hts p (List.mem_cons_of_mem _ hp))
    refine ⟨(name, st) :: sts, (if c.isSome then 1 else 0) + n,
      c.getD 0 + sum, ?_, ?_⟩
    · simp only [runSensors, heq, heqr]
    · exact List.Forall₂.cons ⟨rfl, hp1, hp2⟩ hfa

/-- C5 amended: a missing entity or an unparsable value is caught and
converted into that one sensor's invalid status without aborting the
aggregation, and every remaining sensor still gets a status — provided no
existing sensor's `last_updated` read/conversion raises; that one failure
mode (bad timestamp) is not caught and aborts the whole aggregation, as the
counterexample shows. -/
theorem c5_failures_isolated_except_timestamp
    (max_age : ℚ) (sensors : List (String × SensorInput))
    (hts : ∀ p ∈ sensors,
      p.2.entityExists = true → p.2.secondsSinceUpdate ≠ HostResult.raised) :
    ∃ sd, update_sensor_status max_age sensors = HostResult.ok sd ∧
      sd.sensor_data.length = sensors.length ∧
      List.Forall₂ (fun (p : String × SensorInput) (q : String × SensorStatus) =>
        p.1 = q.1 ∧
        (p.2.entityExists = false →
          q.2.valid = false ∧ q.2.message = some ("Entity not found")) ∧
        (p.2.entityExists = true → p.2.parsedValue = none → q.2.valid = false))
        sensors sd.sensor_data := by
  obtain ⟨sts, n, sum, heq, hfa⟩ := runSensors_no_uncaught max_age sensors hts
  refine ⟨{ current_temperature := pyRound1 (if 1 < n then sum / (n : ℚ) else sum),
            valid_sensors := n, max_age_minutes := max_age / 60,
            sensor_data := sts }, ?_, ?_, ?_⟩
  · simp only [update_sensor_status, heq]
  · exact (List.Forall₂.length_eq hfa).symm
  · exact hfa

/-- Witness for C5 amended: a missing entity, an unparsable sensor and a good
sensor all get statuses and the aggregation completes. -/
theorem c5_witness :
    ∃ sd, update_sensor_status cfgW.max_age sensorsMixedW = HostResult.ok sd ∧
      sd.sensor_data.length = sensorsMixedW.length ∧
      List.Forall₂ (fun (p : String × SensorInput) (q : String × SensorStatus) =>
        p.1 = q.1 ∧
        (p.2.entityExists = false →
          q.2.valid = false ∧ q.2.message = some ("Entity not found")) ∧
        (p.2.entityExists = true → p.2.parsedValue = none → q.2.valid = false))
        sensorsMixedW sd.sensor_data :=
  c5_failures_isolated_except_timestamp cfgW.max_age sensorsMixedW (by decide)

/-- Rounding the rational zero gives zero. -/
theorem pyRound1_zero : pyRound1 0 = 0 := by
  norm_num [pyRound1, roundHalfEven]

/-- The contribution a sensor makes to the running count and sum is exactly
determined by whether its final status is valid, and equals its parsed value
then. -/
theorem updateOneSensor_contrib (max_age : ℚ) (inp : SensorInput)
    (st : SensorStatus) (c : Option ℚ)
    (h : updateOneSensor max_age inp = HostResult.ok (st, c)) :
    ((if c.isSome then (1 : ℕ) else 0) = if st.valid then 1 else 0) ∧
    (c.getD 0 = if st.valid then st.value.getD 0 else 0) := by
  simp only [updateOneSensor] at h
  split at h
  · split at h
    · exact absurd h (by simp)
    · split at h
      · split at h
        · injection h with h2
          injection h2 with h3 h4
          subst h3
          subst h4
          simp
        · injection h with h2
          injection h2 with h3 h4
          subst h3
          subst h4
          simp
      · split at h
        · injection h with h2
          injection h2 with h3 h4
          subst h3
          subst h4
          simp
        · injection h with h2
          injection h2 with h3 h4
          subst h3
          subst h4
          simp
  · injection h with h2
    injection h2 with h3 h4
    subst h3
    subst h4
    simp

/-- The running valid-sensor count is the number of statuses marked valid,
and the running sum is the sum of their values. -/
theorem runSensors_count_sum (max_age : ℚ) :
    ∀ (sensors : List (String × SensorInput))
      (sts : List (String × SensorStatus)) (n : ℕ) (sum : ℚ),
      runSensors max_age sensors = HostResult.ok (sts, n, sum) →
      n = (sts.filter (fun p => p.2.valid)).length ∧
      sum = ((sts.filter (fun p => p.2.valid)).map
        (fun p => p.2.value.getD 0)).sum := by
  intro sensors
  induction sensors with
  | nil =>
    intro sts n sum h
    simp only [runSensors] at h
    injection h with h2
    injection h2 with h3 h4
    injection h4 with h5 h6
    subst h3
    subst h5
    subst h6
    simp
  | cons head tail ih =>
    intro sts n sum h
    obtain ⟨name, inp⟩ := head
    simp only [runSensors] at h
    split at h
    · exact absurd h (by simp)
    · next st contrib heq1 =>
      split at h
      · exact absurd h (by simp)
      · next sts2 n2 sum2 heq2 =>
        injection h with h2
        injection h2 with h3 h4
        injection h4 with h5 h6
        subst h3
        subst h5
        subst h6
        obtain ⟨ihn, ihs⟩ := ih sts2 n2 sum2 heq2
        obtain ⟨hc1, hc2⟩ := updateOneSensor_contrib max_age inp st contrib heq1
        constructor
        · rw [hc1, ihn]
          cases hv : st.valid
          · simp [hv, List.filter_cons]
          · simp [hv, List.filter_cons]
            omega
        · rw [hc2, ihs]
          cases hv : st.valid <;> simp [hv, List.filter_cons]

/-- C3: the published temperature is the arithmetic mean of the values of the
sensors whose status is valid, rounded to one decimal place; with exactly one
valid sensor the single value passes through with no averaging divide (only
the rounding applies, as in every case), and with zero valid sensors the
accumulator identity 0.0 is published. -/
theorem c3_published_temperature_is_rounded_mean
    (max_age : ℚ) (sensors : List (String × SensorInput))
    (sd : AggregatedReading)
    (h : update_sensor_status max_age sensors = HostResult.ok sd) :
    sd.valid_sensors = (validValues sd).length ∧
    (1 ≤ sd.valid_sensors →
      sd.current_temperature =
        pyRound1 ((validValues sd).sum / (sd.valid_sensors : ℚ))) ∧
    (∀ v, validValues sd = [v] → sd.current_temperature = pyRound1 v) ∧
    (sd.valid_sensors = 0 → sd.current_temperature = 0) := by
  simp only [update_sensor_status] at h
  split at h
  · exact absurd h (by simp)
  · next sts n sum heq =>
    injection h with h2
    obtain ⟨hn, hs⟩ := runSensors_count_sum max_age sensors sts n sum heq
    have hsd1 : sd.current_temperature =
        pyRound1 (if 1 < n then sum / (n : ℚ) else sum) :=
      (congrArg AggregatedReading.current_temperature h2).symm
    have hsd2 : sd.valid_sensors = n :=
      (congrArg AggregatedReading.valid_sensors h2).symm
    have hsd3 : sd.sensor_data = sts :=
      (congrArg AggregatedReading.sensor_data h2).symm
    have hvv : validValues sd =
        (sts.filter (fun p => p.2.valid)).map (fun p => p.2.value.getD 0) := by
      unfold validValues
      rw [hsd3]
    refine ⟨?_, ?_, ?_, ?_⟩
    · rw [hsd2, hvv, hn]
      simp
    · intro h1
      rw [hsd2] at h1
      rw [hsd1, hsd2, hvv]
      rcases Nat.lt_or_ge 1 n with hgt | hle
      · rw [if_pos hgt, hs]
      · have hone : n = 1 := Nat.le_antisymm hle h1
        subst hone
        rw [if_neg (lt_irrefl 1), hs]
        norm_num
    · intro v hv
      rw [hvv] at hv
      have hlen : (sts.filter (fun p => p.2.valid)).length = 1 := by
        have hcg := congrArg List.length hv
        simpa using hcg
      have hone : n = 1 := hn.trans hlen
      subst hone
      rw [hsd1, if_neg (lt_irrefl 1), hs, hv]
      simp
    · intro h0
      rw [hsd2] at h0
      have hnil : sts.filter (fun p => p.2.valid) = [] :=
        List.length_eq_zero.mp (hn.symm.trans h0)
      rw [hsd1, h0, hs, hnil]
      norm_num [pyRound1_zero]

/-- Witness for C3: the single valid 17-degree sensor, whose aggregated
temperature is the rounded single value 17. -/
theorem c3_witness :
    sdW.valid_sensors = (validValues sdW).length ∧
    (1 ≤ sdW.valid_sensors →
      sdW.current_temperature =
        pyRound1 ((validValues sdW).sum / (sdW.valid_sensors : ℚ))) ∧
    (validValues sdW = [17] → sdW.current_temperature = pyRound1 17) ∧
    (sdW.valid_sensors = 0 → sdW.current_temperature = 0) :=
  ⟨(c3_published_temperature_is_rounded_mean cfgW.max_age sensorsW sdW
      update_sensor_status_sensorsW).1,
   (c3_published_temperature_is_rounded_mean cfgW.max_age sensorsW sdW
      update_sensor_status_sensorsW).2.1,
   (c3_published_temperature_is_rounded_mean cfgW.max_age sensorsW sdW
      update_sensor_status_sensorsW).2.2.1 17,
   (c3_published_temperature_is_rounded_mean cfgW.max_age sensorsW sdW
      update_sensor_status_sensorsW).2.2.2⟩

end VirtualThermostat
